import Mathlib

set_option maxRecDepth 100000

/-
Verification of `scripts/gen_test_files.py`, the fixture-generation script of
the copyright-notice repository.

The script is embedded shallowly:
  * A filesystem is a `DirState`: the set of existing directories, an
    association list from file paths to their text contents, and an oracle
    `writeError` that models OS-level write failures (a path on which opening
    for write raises, e.g. for permissions or a full disk).  Paths are lists
    of components, as produced by splitting a POSIX path string on `/`.
  * Exceptions become `Except`; state mutated before an exception is raised is
    carried inside the error value, matching Python semantics where a caught
    exception leaves earlier side effects in place.
  * `print`/`self.log` become an accumulated list of output lines.  The
    wall-clock timestamp prefix that `log` adds is not modelled (no claim
    mentions it); a log line is modelled by its message text.
  * Python process termination is `MainResult`: `exit code` for an orderly
    termination (falling off `main` gives code 0, `sys.exit(1)` gives 1) and
    `uncaught e` for an exception that propagates out of `main`, which the
    interpreter turns into a traceback and exit status 1 without any of the
    program's own output.
-/

namespace GenTestFiles

/-- A filesystem path, as components. -/
abbrev FsPath := List String

/-- Python exception kinds raised by the filesystem operations the script
uses; `ioError msg` models an `OSError` (disk full, permissions, ...) whose
`str(e)` is `msg`. -/
inductive PyError where
  | fileExists
  | fileNotFound
  | isADirectory
  | notADirectory
  | ioError (msg : String)

/-- `str(e)` for the modelled exceptions. -/
def PyError.message : PyError → String
  | .fileExists => "File exists"
  | .fileNotFound => "No such file or directory"
  | .isADirectory => "Is a directory"
  | .notADirectory => "Not a directory"
  | .ioError msg => msg

/-- Filesystem state: existing directories, existing files with contents, and
an oracle giving the error message of paths on which opening for write
raises (modelling OS-level write failures). -/
structure DirState where
  dirs : List FsPath
  fileList : List (FsPath × String)
  writeError : FsPath → Option String

/-- Content of file `p`, if it exists. -/
def findVal (fl : List (FsPath × String)) (p : FsPath) : Option String :=
  (fl.find? (fun kv => kv.1 == p)).map (fun kv => kv.2)

/-- Directory-entry update: overwriting an existing file keeps its entry,
writing a fresh name appends one.  Models `open(path, 'w')` creating or
truncating the target. -/
def setFile : List (FsPath × String) → FsPath → String → List (FsPath × String)
  | [], p, c => [(p, c)]
  | kv :: rest, p, c => if kv.1 == p then (p, c) :: rest else kv :: setFile rest p c

/-- All entries of directory `d` (files and subdirectories), as listed by
`Path(d).glob("*")`.  `pathlib`'s glob matches names with
`fnmatch.translate("*")`, which matches every entry, hidden ones included. -/
def dirChildren (s : DirState) (d : FsPath) : List FsPath :=
  (s.dirs ++ s.fileList.map (fun kv => kv.1)).filter (fun q => q.dropLast == d)

/-- `Path(p).mkdir(exist_ok=True)` (with `parents` defaulting to `False`):
silently succeeds when the directory exists, raises `FileExistsError` when a
regular file occupies the path, creates the directory when its parent exists,
and raises `NotADirectoryError`/`FileNotFoundError` when the parent is a file
or missing.  The empty parent path is the current working directory, which
always exists. -/
def mkdirExistOk (s : DirState) (p : FsPath) : Except PyError DirState :=
  if s.dirs.contains p then .ok s
  else if s.fileList.any (fun kv => kv.1 == p) then .error .fileExists
  else if p.dropLast.isEmpty || s.dirs.contains p.dropLast then
    .ok { s with dirs := s.dirs ++ [p] }
  else if s.fileList.any (fun kv => kv.1 == p.dropLast) then .error .notADirectory
  else .error .fileNotFound

/-- `open(p, 'w', encoding='utf-8')` followed by `f.write(c)`: raises when the
target is a directory, when the parent directory is missing or is a file, or
when the write-failure oracle names this path; otherwise replaces the file's
content with `c` (creating the file if absent). -/
def writeFileUtf8 (s : DirState) (p : FsPath) (c : String) : Except PyError DirState :=
  if s.dirs.contains p then .error .isADirectory
  else if p.dropLast.isEmpty || s.dirs.contains p.dropLast then
    match s.writeError p with
    | some m => .error (.ioError m)
    | none => .ok { s with fileList := setFile s.fileList p c }
  else if s.fileList.any (fun kv => kv.1 == p.dropLast) then .error .notADirectory
  else .error .fileNotFound

/-- Split a character list at every `/`. -/
def splitSlash (cs : List Char) : List (List Char) :=
  match cs with
  | [] => [[]]
  | c :: rest =>
      let r := splitSlash rest
      if c = Char.ofNat 47 then [] :: r
      else
        match r with
        | [] => [[c]]
        | w :: ws => (c :: w) :: ws

/-- Split a POSIX path string into components, as `pathlib.Path` does for the
relative paths the script is run with (empty components collapse). -/
def toFsPath (s : String) : FsPath :=
  ((splitSlash s.toList).map (fun cs => String.mk cs)).filter (fun c => c != "")

/-- One `create_file` call's data: target filename, literal content, and the
human-readable description used in the log line. -/
structure FixtureSpec where
  filename : String
  content : String
  description : String
  deriving DecidableEq

/-- The generator object: it holds only `self.output_dir`. -/
structure TestFileGenerator where
  output_dir : FsPath

/-- The constructor body `self.output_dir = Path(output_dir);
self.output_dir.mkdir(exist_ok=True)`.  An exception escapes to the caller. -/
def TestFileGenerator.init (s : DirState) (output_dir : String) :
    Except PyError (TestFileGenerator × DirState) :=
  match mkdirExistOk s (toFsPath output_dir) with
  | .error e => .error e
  | .ok s1 => .ok (⟨toFsPath output_dir⟩, s1)

/-- Program state threaded through the generator methods: the filesystem and
the console output emitted so far. -/
abbrev St := DirState × List String

/-- Result of a generator method: `ok` with the new state, or a raised
exception together with the state at the moment it was raised (Python keeps
side effects performed before an exception). -/
abbrev GenM := Except (PyError × DirState × List String) St

/-- `self.log(message)`: prints the message (timestamp prefix not modelled). -/
def TestFileGenerator.log (_ : TestFileGenerator) (so : St) (m : String) : St :=
  (so.1, so.2 ++ [m])

/-- A bare `print()` call: an empty output line. -/
def printLine (so : St) : St :=
  (so.1, so.2 ++ [""])

/-- `self.create_file(filename, content, description)`: writes the content to
`output_dir/filename` and logs the created file with its character count. -/
def TestFileGenerator.create_file (g : TestFileGenerator) (so : St) (f : FixtureSpec) : GenM :=
  match writeFileUtf8 so.1 (g.output_dir ++ [f.filename]) f.content with
  | .error e => .error (e, so.1, so.2)
  | .ok s1 =>
      .ok (s1, so.2 ++ ["✓ Created " ++ f.filename ++ " (" ++ toString f.content.length
        ++ " chars) - " ++ f.description])

/-- Sequential `create_file` calls, as each `generate_*_files` method makes. -/
def createFilesSeq (g : TestFileGenerator) (so : St) : List FixtureSpec → GenM
  | [] => .ok so
  | f :: rest =>
      match g.create_file so f with
      | .error x => .error x
      | .ok so1 => createFilesSeq g so1 rest

def basic_js_content : String :=
  "function hello() \x7b\n    console.log(\x27Hello, World!\x27);\n\x7d\n"

def with_copyright_js_content : String :=
  "/**\n * Copyright (c) 2023 Test Company\n * All rights reserved.\n */\n\nfunction hello() \x7b\n    console.log(\x27Hello, World!\x27);\n\x7d\n"

def different_copyright_js_content : String :=
  "/* Copyright (c) 2023 Another Company */\n\nfunction hello() \x7b\n    console.log(\x27Hello, World!\x27);\n\x7d\n"

def basic_ts_content : String :=
  "interface User \x7b\n    name: string;\n    age: number;\n\x7d\n\nfunction greet(user: User): string \x7b\n    return `Hello, $\x7buser.name\x7d!`;\n\x7d\n"

def with_copyright_ts_content : String :=
  "/**\n * Copyright (c) 2023 TypeScript Company\n * Created: 2023-01-01 12:00:00\n * Last Updated: 2023-01-15 14:30:00\n */\n\ninterface User \x7b\n    name: string;\n    age: number;\n\x7d\n"

def basic_ahk_content : String :=
  "F1::\n    MsgBox, Hello World!\nreturn\n\nF2::\n    Send, Hello from AutoHotkey!\nreturn\n"

def basic_ahk2_content : String :=
  "F1:: \x7b\n    MsgBox(\x27Hello World!\x27)\n\x7d\n\nF2:: \x7b\n    Send(\x27Hello from AutoHotkey v2!\x27)\n\x7d\n"

def with_copyright_ahk_content : String :=
  "/*\n * Copyright (c) 2023 AHK Company\n * All rights reserved.\n */\n\nF1::\n    MsgBox, Hello World!\nreturn\n"

def basic_py_content : String :=
  "def hello():\n    print(\x27Hello, World!\x27)\n\nif __name__ == \x27__main__\x27:\n    hello()\n"

def with_copyright_py_content : String :=
  "# Copyright (c) 2023 Python Company\n# All rights reserved.\n\ndef hello():\n    print(\x27Hello, World!\x27)\n"

def basic_cpp_content : String :=
  "#include <iostream>\n\nint main() \x7b\n    std::cout << \"Hello, World!\" << std::endl;\n    return 0;\n\x7d\n"

def basic_h_content : String :=
  "#ifndef BASIC_H\n#define BASIC_H\n\nclass Basic \x7b\npublic:\n    void hello();\n\x7d;\n\n#endif\n"

def config_json_content : String :=
  "\x7b\n    \"name\": \"test\",\n    \"version\": \"1.0.0\",\n    \"description\": \"Test configuration\"\n\x7d\n"

def package_json_content : String :=
  "\x7b\n    \"name\": \"test-package\",\n    \"version\": \"1.0.0\",\n    \"description\": \"Test package\"\n\x7d\n"

def basic_html_content : String :=
  "<!DOCTYPE html>\n<html>\n<head>\n    <title>Test Page</title>\n</head>\n<body>\n    <h1>Hello World</h1>\n</body>\n</html>\n"

def basic_css_content : String :=
  "body \x7b\n    font-family: Arial, sans-serif;\n    margin: 0;\n    padding: 20px;\n\x7d\n\nh1 \x7b\n    color: #333;\n\x7d\n"

def basic_sh_content : String :=
  "#!/bin/bash\n\necho \"Hello, World!\"\n\nexit 0\n"

/-- The three `create_file` calls of `generate_js_files`. -/
def js_files : List FixtureSpec :=
  [⟨"basic.js", basic_js_content, "Basic JS without copyright notice"⟩,
   ⟨"with_copyright.js", with_copyright_js_content, "JS with existing copyright notice"⟩,
   ⟨"different_copyright.js", different_copyright_js_content, "JS with different copyright format"⟩]

/-- The two `create_file` calls of `generate_ts_files`. -/
def ts_files : List FixtureSpec :=
  [⟨"basic.ts", basic_ts_content, "Basic TypeScript without copyright notice"⟩,
   ⟨"with_copyright.ts", with_copyright_ts_content, "TypeScript with existing copyright and timestamps"⟩]

/-- The three `create_file` calls of `generate_ahk_files`. -/
def ahk_files : List FixtureSpec :=
  [⟨"basic.ahk", basic_ahk_content, "Basic AutoHotkey without copyright notice"⟩,
   ⟨"basic.ahk2", basic_ahk2_content, "AutoHotkey v2 without copyright notice"⟩,
   ⟨"with_copyright.ahk", with_copyright_ahk_content, "AutoHotkey with existing copyright notice"⟩]

/-- The two `create_file` calls of `generate_py_files`. -/
def py_files : List FixtureSpec :=
  [⟨"basic.py", basic_py_content, "Basic Python without copyright notice"⟩,
   ⟨"with_copyright.py", with_copyright_py_content, "Python with existing copyright notice"⟩]

/-- The two `create_file` calls of `generate_cpp_files`. -/
def cpp_files : List FixtureSpec :=
  [⟨"basic.cpp", basic_cpp_content, "Basic C++ without copyright notice"⟩,
   ⟨"basic.h", basic_h_content, "Basic C++ header without copyright notice"⟩]

/-- The two `create_file` calls of `generate_json_files`. -/
def json_files : List FixtureSpec :=
  [⟨"config.json", config_json_content, "JSON config file (should be excluded)"⟩,
   ⟨"package.json", package_json_content, "JSON package file (should be excluded)"⟩]

/-- The three `create_file` calls of `generate_mixed_files`. -/
def mixed_files : List FixtureSpec :=
  [⟨"basic.html", basic_html_content, "Basic HTML without copyright notice"⟩,
   ⟨"basic.css", basic_css_content, "Basic CSS without copyright notice"⟩,
   ⟨"basic.sh", basic_sh_content, "Basic shell script without copyright notice"⟩]

def TestFileGenerator.generate_js_files (g : TestFileGenerator) (so : St) : GenM :=
  createFilesSeq g (g.log so "Generating JavaScript test files...") js_files

def TestFileGenerator.generate_ts_files (g : TestFileGenerator) (so : St) : GenM :=
  createFilesSeq g (g.log so "Generating TypeScript test files...") ts_files

def TestFileGenerator.generate_ahk_files (g : TestFileGenerator) (so : St) : GenM :=
  createFilesSeq g (g.log so "Generating AutoHotkey test files...") ahk_files

def TestFileGenerator.generate_py_files (g : TestFileGenerator) (so : St) : GenM :=
  createFilesSeq g (g.log so "Generating Python test files...") py_files

def TestFileGenerator.generate_cpp_files (g : TestFileGenerator) (so : St) : GenM :=
  createFilesSeq g (g.log so "Generating C++ test files...") cpp_files

def TestFileGenerator.generate_json_files (g : TestFileGenerator) (so : St) : GenM :=
  createFilesSeq g (g.log so "Generating JSON files (should be excluded)...") json_files

def TestFileGenerator.generate_mixed_files (g : TestFileGenerator) (so : St) : GenM :=
  createFilesSeq g (g.log so "Generating mixed content files...") mixed_files

/-- JSON values occurring in the settings document: strings, booleans, and
arrays of strings, exactly the shapes the script serializes. -/
inductive JValue where
  | jstr (s : String)
  | jbool (b : Bool)
  | jarr (xs : List String)
  deriving DecidableEq

/-- Hexadecimal digit, lower case, as `json.dump` emits in escapes. -/
def hexDigit (n : Nat) : Char :=
  if n < 10 then Char.ofNat (48 + n) else Char.ofNat (87 + n)

/-- Four-digit lower-case hexadecimal rendering of `n`, for escapes. -/
def hex4 (n : Nat) : String :=
  String.mk [hexDigit (n / 4096 % 16), hexDigit (n / 256 % 16),
             hexDigit (n / 16 % 16), hexDigit (n % 16)]

/-- `json.dump`'s escaping of one character inside a string literal, with the
default `ensure_ascii=True`. -/
def jsonEscapeChar (c : Char) : String :=
  if c = Char.ofNat 34 then "\\\""
  else if c = Char.ofNat 92 then "\\\\"
  else if c = Char.ofNat 10 then "\\n"
  else if c = Char.ofNat 13 then "\\r"
  else if c = Char.ofNat 9 then "\\t"
  else if c = Char.ofNat 8 then "\\b"
  else if c = Char.ofNat 12 then "\\f"
  else if c.toNat < 32 || c.toNat ≥ 127 then "\\u" ++ hex4 c.toNat
  else String.singleton c

/-- A JSON string literal for `s`. -/
def jsonStr (s : String) : String :=
  "\"" ++ String.join (s.toList.map jsonEscapeChar) ++ "\""

def spaces (n : Nat) : String :=
  String.mk (List.replicate n (Char.ofNat 32))

/-- Serialization of one settings value at indentation depth `ind`, following
`json.dump(..., indent=4)`. -/
def JValue.dump (ind : Nat) : JValue → String
  | .jstr s => jsonStr s
  | .jbool b => if b then "true" else "false"
  | .jarr [] => "[]"
  | .jarr xs =>
      "[\n" ++ String.intercalate ",\n" (xs.map (fun x => spaces (ind + 4) ++ jsonStr x))
        ++ "\n" ++ spaces ind ++ "]"

/-- `json.dump(obj, f, indent=4)` for a top-level object, keys in insertion
order as Python dicts preserve it. -/
def jsonDumpObj (kvs : List (String × JValue)) : String :=
  match kvs with
  | [] => "\x7b\x7d"
  | _ =>
      "\x7b\n" ++ String.intercalate ",\n"
          (kvs.map (fun kv => spaces 4 ++ jsonStr kv.1 ++ ": " ++ kv.2.dump 4))
        ++ "\n\x7d"

/-- The `settings` dict built in `generate_vscode_settings`, keys in source
order. -/
def settings : List (String × JValue) :=
  [("copyright-notice.fileExtensions",
    .jarr [".js", ".jsx", ".ts", ".tsx", ".py", ".cpp", ".h", ".ahk", ".ahk2"]),
   ("copyright-notice.excludedFiles",
    .jarr ["*.json", "*.config.js", "package.json", "tsconfig.json"]),
   ("copyright-notice.template",
    .jstr "/**\n * Copyright (c) \x7byear\x7d Test Company\n * All rights reserved.\n */\n\n"),
   ("copyright-notice.includeTimestamp", .jbool true),
   ("copyright-notice.timestampFormat", .jstr "YYYY-MM-DD HH:mm:ss"),
   ("copyright-notice.includeUpdateTime", .jbool true),
   ("copyright-notice.updateTimeFormat", .jstr "YYYY-MM-DD HH:mm:ss")]

/-- Value of a key in the settings document. -/
def settingsLookup (k : String) : Option JValue :=
  (settings.find? (fun kv => kv.1 == k)).map (fun kv => kv.2)

/-- The serialized settings document written to `test_settings.json`. -/
def settingsJsonText : String := jsonDumpObj settings

/-- The Markdown text written to `README.md`. -/
def readme_content : String :=
  "# Test Files for Copyright Notice Extension\n\nThis directory contains test files to verify the copyright notice extension works correctly.\n\n## File Types Generated\n\n### JavaScript/TypeScript\n- `basic.js` - Basic JS without copyright notice\n- `with_copyright.js` - JS with existing copyright notice\n- `different_copyright.js` - JS with different copyright format\n- `basic.ts` - Basic TypeScript without copyright notice\n- `with_copyright.ts` - TypeScript with existing copyright and timestamps\n\n### AutoHotkey\n- `basic.ahk` - Basic AutoHotkey without copyright notice\n- `basic.ahk2` - AutoHotkey v2 without copyright notice\n- `with_copyright.ahk` - AutoHotkey with existing copyright notice\n\n### Python\n- `basic.py` - Basic Python without copyright notice\n- `with_copyright.py` - Python with existing copyright notice\n\n### C++\n- `basic.cpp` - Basic C++ without copyright notice\n- `basic.h` - Basic C++ header without copyright notice\n\n### Excluded Files (JSON)\n- `config.json` - Should be excluded from copyright notices\n- `package.json` - Should be excluded from copyright notices\n\n### Other\n- `basic.html` - Basic HTML without copyright notice\n- `basic.css` - Basic CSS without copyright notice\n- `basic.sh` - Basic shell script without copyright notice\n\n## Testing Instructions\n\n1. Copy `test_settings.json` to your VS Code settings\n2. Open each test file in VS Code\n3. Verify that copyright notices are added to appropriate files\n4. Verify that JSON files are excluded\n5. Test the manual command: `Ctrl+Shift+P` → \"Apply Copyright Notice\"\n\n## Expected Behavior\n\n- Files without copyright notices should get them added automatically\n- Files with existing copyright notices should remain unchanged (or get timestamps updated if enabled)\n- JSON files should be excluded from copyright notices\n- .ahk2 files should work properly even if VS Code doesn\x27t recognize the language ID\n\n## VS Code Settings\n\nUse the provided `test_settings.json` file to configure the extension for testing.\n"

/-- `generate_vscode_settings`: serializes the settings dict with `indent=4`
and writes it to `output_dir/test_settings.json`. -/
def TestFileGenerator.generate_vscode_settings (g : TestFileGenerator) (so : St) : GenM :=
  let so := g.log so "Generating VS Code settings..."
  match writeFileUtf8 so.1 (g.output_dir ++ ["test_settings.json"]) settingsJsonText with
  | .error e => .error (e, so.1, so.2)
  | .ok s1 => .ok (s1, so.2 ++ ["✓ Created test_settings.json - VS Code settings for testing"])

/-- `generate_readme`: writes the fixed Markdown text to
`output_dir/README.md`. -/
def TestFileGenerator.generate_readme (g : TestFileGenerator) (so : St) : GenM :=
  let so := g.log so "Generating test README..."
  match writeFileUtf8 so.1 (g.output_dir ++ ["README.md"]) readme_content with
  | .error e => .error (e, so.1, so.2)
  | .ok s1 => .ok (s1, so.2 ++ ["✓ Created README.md - Testing instructions"])

/-- The body of `generate_all`'s `try` block: the nine generator calls in
source order, a bare `print()` after each. -/
def TestFileGenerator.generate_all_body (g : TestFileGenerator) (so : St) : GenM :=
  (g.generate_js_files so).bind (fun so =>
  (g.generate_ts_files (printLine so)).bind (fun so =>
  (g.generate_ahk_files (printLine so)).bind (fun so =>
  (g.generate_py_files (printLine so)).bind (fun so =>
  (g.generate_cpp_files (printLine so)).bind (fun so =>
  (g.generate_json_files (printLine so)).bind (fun so =>
  (g.generate_mixed_files (printLine so)).bind (fun so =>
  (g.generate_vscode_settings (printLine so)).bind (fun so =>
  (g.generate_readme (printLine so)).map printLine))))))))

/-- `len(list(self.output_dir.glob("*")))`, the `file_count` local computed at
the end of a successful run. -/
def TestFileGenerator.file_count (g : TestFileGenerator) (s : DirState) : Nat :=
  (dirChildren s g.output_dir).length

/-- Path rendered back to text, for the log lines mentioning the directory. -/
def pathText (p : FsPath) : String :=
  String.intercalate "/" p

/-- The conclusion of `generate_all` after its `try` block: on an exception
logs `ERROR: Failed to generate test files: ...` and returns `False`;
otherwise counts the directory entries, logs the summary and returns
`True`. -/
def TestFileGenerator.generate_all_wrap (g : TestFileGenerator) (r : GenM) :
    Bool × DirState × List String :=
  match r with
  | .error (e, s, out) =>
      (false, s, out ++ ["ERROR: Failed to generate test files: " ++ e.message])
  | .ok (s, out) =>
      let n := g.file_count s
      (true, s, out ++ ["=== Test file generation completed ===",
        "Generated " ++ toString n ++ " files in " ++ pathText g.output_dir,
        "Use these files to test the copyright notice extension!"])

/-- `generate_all`: header logs, the `try` block of nine generator calls, and
the success/failure conclusion of `generate_all_wrap`. -/
def TestFileGenerator.generate_all (g : TestFileGenerator) (so : St) :
    Bool × DirState × List String :=
  let so := g.log so "=== Starting Test File Generation ==="
  let so := g.log so ("Output directory: " ++ pathText g.output_dir)
  let so := printLine so
  g.generate_all_wrap (g.generate_all_body so)

/-- Outcome of running the script's process. -/
inductive MainResult where
  | exit (code : Nat) (s : DirState) (out : List String)
  | uncaught (e : PyError) (s : DirState) (out : List String)

/-- `sys.argv[1] if len(sys.argv) > 1 else "test_files"`. -/
def mainOutputDir (argv : List String) : String :=
  match argv with
  | _ :: a :: _ => a
  | _ => "test_files"

/-- `main()`: picks the output directory from `argv`, constructs the generator
(whose `mkdir` may raise, uncaught), runs `generate_all`, and exits 0 on
success or prints a failure message and exits 1. -/
def main (s : DirState) (argv : List String) : MainResult :=
  let output_dir := mainOutputDir argv
  match TestFileGenerator.init s output_dir with
  | .error e => .uncaught e s []
  | .ok (generator, s1) =>
      match generator.generate_all (s1, []) with
      | (true, s2, out) =>
          .exit 0 s2 (out ++ ["",
            "Test files generated successfully in: " ++ pathText generator.output_dir,
            "You can now use these files to test the copyright notice extension!"])
      | (false, s2, out) =>
          .exit 1 s2 (out ++ ["", "Failed to generate test files."])

/-- The full write sequence of one `generate_all` run, in order: the seventeen
source fixtures, then the settings document, then the README. -/
def allFixtures : List FixtureSpec :=
  js_files ++ ts_files ++ ahk_files ++ py_files ++ cpp_files ++ json_files ++ mixed_files
    ++ [⟨"test_settings.json", settingsJsonText, "VS Code settings for testing"⟩,
        ⟨"README.md", readme_content, "Testing instructions"⟩]

/-- The nineteen filenames `generate_all` writes. -/
def fixtureNames : List String :=
  allFixtures.map (fun f => f.filename)

/-- Target paths with contents for one run against generator `g`. -/
def fixtureTargets (g : TestFileGenerator) : List (FsPath × String) :=
  allFixtures.map (fun f => (g.output_dir ++ [f.filename], f.content))

/-! ### Association-list lemmas for the file table -/

theorem findVal_nil (p : FsPath) : findVal [] p = none := rfl

theorem findVal_cons (kv : FsPath × String) (fl : List (FsPath × String)) (p : FsPath) :
    findVal (kv :: fl) p = if kv.1 == p then some kv.2 else findVal fl p := by
  by_cases h : kv.1 == p
  · simp [findVal, List.find?, h]
  · simp only [Bool.not_eq_true] at h
    simp [findVal, List.find?, h]

theorem findVal_setFile_self (fl : List (FsPath × String)) (p : FsPath) (c : String) :
    findVal (setFile fl p c) p = some c := by
  induction fl with
  | nil => simp [setFile, findVal_cons]
  | cons kv rest ih =>
      by_cases h : kv.1 == p
      · simp [setFile, h, findVal_cons]
      · simp only [Bool.not_eq_true] at h
        simp [setFile, h, findVal_cons, ih]

theorem findVal_setFile_ne (fl : List (FsPath × String)) (p q : FsPath) (c : String)
    (h : q ≠ p) : findVal (setFile fl p c) q = findVal fl q := by
  induction fl with
  | nil =>
      have hb : (p == q) = false := by
        simp only [beq_eq_false_iff_ne, ne_eq]
        exact fun hpq => h hpq.symm
      simp [setFile, findVal_cons, hb, findVal_nil]
  | cons kv rest ih =>
      by_cases hk : kv.1 == p
      · have hk' : kv.1 = p := eq_of_beq hk
        rw [setFile, if_pos hk, findVal_cons, findVal_cons, hk']
        have : (p == q) = false := by
          simp only [beq_eq_false_iff_ne, ne_eq]
          exact fun hpq => h hpq.symm
        simp [this]
      · simp only [Bool.not_eq_true] at hk
        rw [setFile, if_neg (by simp [hk]), findVal_cons, findVal_cons, ih]

theorem setFile_of_fresh (fl : List (FsPath × String)) (p : FsPath) (c : String)
    (h : findVal fl p = none) : setFile fl p c = fl ++ [(p, c)] := by
  induction fl with
  | nil => simp [setFile]
  | cons kv rest ih =>
      rw [findVal_cons] at h
      by_cases hk : kv.1 == p
      · simp [hk] at h
      · simp only [Bool.not_eq_true] at hk
        simp only [hk] at h
        simp [setFile, hk, ih h]

theorem keys_setFile_of_some (fl : List (FsPath × String)) (p : FsPath) (c c₀ : String)
    (h : findVal fl p = some c₀) :
    (setFile fl p c).map (fun kv => kv.1) = fl.map (fun kv => kv.1) := by
  induction fl with
  | nil => simp [findVal_nil] at h
  | cons kv rest ih =>
      rw [findVal_cons] at h
      by_cases hk : kv.1 == p
      · have hk' : kv.1 = p := eq_of_beq hk
        simp [setFile, hk, hk']
      · simp only [Bool.not_eq_true] at hk
        simp only [hk] at h
        simp [setFile, hk, ih h]

theorem findVal_append_of_none (a b : List (FsPath × String)) (p : FsPath)
    (h : findVal a p = none) : findVal (a ++ b) p = findVal b p := by
  induction a with
  | nil => simp
  | cons kv rest ih =>
      rw [findVal_cons] at h
      by_cases hk : kv.1 == p
      · simp [hk] at h
      · simp only [Bool.not_eq_true] at hk
        simp only [hk] at h
        rw [List.cons_append, findVal_cons, ih h]
        simp [hk]

/-- Folding `setFile` over a list of writes, the combined file-table effect of
a successful run. -/
def setMany (fl : List (FsPath × String)) (ps : List (FsPath × String)) :
    List (FsPath × String) :=
  ps.foldl (fun a pc => setFile a pc.1 pc.2) fl

theorem setMany_nil (fl : List (FsPath × String)) : setMany fl [] = fl := rfl

theorem setMany_cons (fl : List (FsPath × String)) (pc : FsPath × String)
    (ps : List (FsPath × String)) :
    setMany fl (pc :: ps) = setMany (setFile fl pc.1 pc.2) ps := rfl

theorem findVal_setMany_not_mem (ps : List (FsPath × String)) (q : FsPath)
    (h : ∀ pc ∈ ps, pc.1 ≠ q) :
    ∀ fl, findVal (setMany fl ps) q = findVal fl q := by
  induction ps with
  | nil => intro fl; rfl
  | cons pc rest ih =>
      intro fl
      rw [setMany_cons, ih (fun x hx => h x (List.mem_cons_of_mem _ hx)),
        findVal_setFile_ne]
      exact fun hq => h pc (List.mem_cons_self _ _) hq.symm

theorem findVal_setMany_mem (ps : List (FsPath × String)) (p : FsPath) (c : String)
    (hnd : (ps.map (fun pc => pc.1)).Nodup) (hmem : (p, c) ∈ ps) :
    ∀ fl, findVal (setMany fl ps) p = some c := by
  induction ps with
  | nil => simp at hmem
  | cons pc rest ih =>
      intro fl
      rw [List.map_cons, List.nodup_cons] at hnd
      rcases List.mem_cons.mp hmem with heq | hmem'
      · subst heq
        rw [setMany_cons]
        rw [findVal_setMany_not_mem rest p
          (fun x hx hxq => hnd.1 (hxq ▸ List.mem_map_of_mem (fun pc => pc.1) hx))]
        exact findVal_setFile_self _ _ _
      · exact ih hnd.2 hmem' _

theorem setMany_fresh (ps : List (FsPath × String))
    (hnd : (ps.map (fun pc => pc.1)).Nodup) :
    ∀ fl, (∀ pc ∈ ps, findVal fl pc.1 = none) → setMany fl ps = fl ++ ps := by
  induction ps with
  | nil => simp [setMany_nil]
  | cons pc rest ih =>
      intro fl h
      rw [List.map_cons, List.nodup_cons] at hnd
      rw [setMany_cons, setFile_of_fresh fl pc.1 pc.2 (h pc (List.mem_cons_self _ _))]
      rw [ih hnd.2 _ ?_]
      · simp
      · intro qc hq
        rw [findVal_append_of_none _ _ _ (h qc (List.mem_cons_of_mem _ hq))]
        rw [findVal_cons]
        have : (pc.1 == qc.1) = false := by
          simp only [beq_eq_false_iff_ne, ne_eq]
          intro he
          exact hnd.1 (he ▸ List.mem_map_of_mem (fun x => x.1) hq)
        simp [this, findVal_nil]

theorem keys_setMany_of_all_some (ps : List (FsPath × String)) :
    ∀ fl, (∀ pc ∈ ps, ∃ c, findVal fl pc.1 = some c) →
    (setMany fl ps).map (fun kv => kv.1) = fl.map (fun kv => kv.1) := by
  induction ps with
  | nil => intro fl _; rfl
  | cons pc rest ih =>
      intro fl h
      obtain ⟨c₀, hc₀⟩ := h pc (List.mem_cons_self _ _)
      rw [setMany_cons, ih _ ?_, keys_setFile_of_some fl pc.1 pc.2 c₀ hc₀]
      intro qc hq
      by_cases hpq : qc.1 = pc.1
      · exact ⟨pc.2, by rw [hpq, findVal_setFile_self]⟩
      · obtain ⟨c, hc⟩ := h qc (List.mem_cons_of_mem _ hq)
        exact ⟨c, by rw [findVal_setFile_ne _ _ _ _ hpq, hc]⟩

/-! ### Write-sequence lemmas -/

/-- The sequence of raw file writes of one run, stopping at the first raised
exception and carrying the state at that point (Python keeps the side effects
performed before an exception). -/
def writeSeq : DirState → List (FsPath × String) → Except (PyError × DirState) DirState
  | s, [] => .ok s
  | s, pc :: rest =>
      match writeFileUtf8 s pc.1 pc.2 with
      | .error e => .error (e, s)
      | .ok s1 => writeSeq s1 rest

/-- Per-write success conditions: the target is not a directory, its parent
directory exists (or is the working directory), and the write oracle does not
fail it. -/
def writable (s : DirState) (ps : List (FsPath × String)) : Prop :=
  ∀ pc ∈ ps, s.dirs.contains pc.1 = false ∧
    (pc.1.dropLast.isEmpty || s.dirs.contains pc.1.dropLast) = true ∧
    s.writeError pc.1 = none

theorem writeFileUtf8_ok_of (s : DirState) (p : FsPath) (c : String)
    (h1 : s.dirs.contains p = false)
    (h2 : (p.dropLast.isEmpty || s.dirs.contains p.dropLast) = true)
    (h3 : s.writeError p = none) :
    writeFileUtf8 s p c = .ok ⟨s.dirs, setFile s.fileList p c, s.writeError⟩ := by
  rw [writeFileUtf8, if_neg (by rw [h1]; simp), if_pos h2, h3]

theorem writeFileUtf8_ok_inv (s s' : DirState) (p : FsPath) (c : String)
    (h : writeFileUtf8 s p c = .ok s') :
    s' = ⟨s.dirs, setFile s.fileList p c, s.writeError⟩ := by
  rw [writeFileUtf8] at h
  split at h
  · exact absurd h (by simp)
  · split at h
    · split at h
      · exact absurd h (by simp)
      · exact (Except.ok.injEq _ _ ▸ h).symm
    · split at h <;> exact absurd h (by simp)

theorem writeSeq_ok_of_writable (ps : List (FsPath × String)) :
    ∀ s, writable s ps →
      writeSeq s ps = .ok ⟨s.dirs, setMany s.fileList ps, s.writeError⟩ := by
  induction ps with
  | nil => intro s _; rfl
  | cons pc rest ih =>
      intro s hw
      obtain ⟨h1, h2, h3⟩ := hw pc (List.mem_cons_self _ _)
      rw [writeSeq, writeFileUtf8_ok_of s pc.1 pc.2 h1 h2 h3]
      dsimp only
      rw [setMany_cons]
      exact ih _ (fun qc hq => hw qc (List.mem_cons_of_mem _ hq))

theorem writeSeq_ok_inv (ps : List (FsPath × String)) :
    ∀ s sf, writeSeq s ps = .ok sf →
      sf = ⟨s.dirs, setMany s.fileList ps, s.writeError⟩ := by
  induction ps with
  | nil =>
      intro s sf h
      rw [writeSeq] at h
      cases h
      rfl
  | cons pc rest ih =>
      intro s sf h
      rw [writeSeq] at h
      split at h
      · exact absurd h (by simp)
      · rename_i s1 hs1
        have := writeFileUtf8_ok_inv s s1 pc.1 pc.2 hs1
        subst this
        rw [ih _ _ h, setMany_cons]

theorem writeSeq_error_decomp (ps : List (FsPath × String)) :
    ∀ s e sf, writeSeq s ps = .error (e, sf) →
      ∃ done p c rest, ps = done ++ (p, c) :: rest ∧
        writeSeq s done = .ok sf ∧ writeFileUtf8 sf p c = .error e := by
  induction ps with
  | nil =>
      intro s e sf h
      rw [writeSeq] at h
      exact absurd h (by simp)
  | cons pc rest ih =>
      intro s e sf h
      rw [writeSeq] at h
      split at h
      · rename_i e0 he0
        cases h
        exact ⟨[], pc.1, pc.2, rest, by simp, rfl, he0⟩
      · rename_i s1 hs1
        obtain ⟨done, p, c, rest', hsplit, hok, herr⟩ := ih _ _ _ h
        refine ⟨pc :: done, p, c, rest', by simp [hsplit], ?_, herr⟩
        rw [writeSeq, hs1]
        dsimp only
        exact hok

/-- The state in which a possibly failed write sequence leaves the
filesystem. -/
def stateOf (x : Except (PyError × DirState) DirState) : DirState :=
  match x with
  | .ok s => s
  | .error (_, s) => s

theorem stateOf_writeSeq_dirs (ps : List (FsPath × String)) :
    ∀ s, (stateOf (writeSeq s ps)).dirs = s.dirs := by
  induction ps with
  | nil => intro s; rfl
  | cons pc rest ih =>
      intro s
      rw [writeSeq]
      split
      · rfl
      · rename_i s1 hs1
        rw [ih s1, writeFileUtf8_ok_inv s s1 pc.1 pc.2 hs1]

theorem stateOf_writeSeq_findVal_ne (ps : List (FsPath × String)) (q : FsPath)
    (h : ∀ pc ∈ ps, pc.1 ≠ q) :
    ∀ s, findVal (stateOf (writeSeq s ps)).fileList q = findVal s.fileList q := by
  induction ps with
  | nil => intro s; rfl
  | cons pc rest ih =>
      intro s
      rw [writeSeq]
      split
      · rfl
      · rename_i s1 hs1
        rw [ih (fun x hx => h x (List.mem_cons_of_mem _ hx)) s1,
          writeFileUtf8_ok_inv s s1 pc.1 pc.2 hs1]
        exact findVal_setFile_ne _ _ _ _
          (fun hq => h pc (List.mem_cons_self _ _) hq.symm)

theorem stateOf_writeSeq_no_delete (ps : List (FsPath × String)) (q : FsPath) :
    ∀ s c, findVal s.fileList q = some c →
      ∃ c', findVal (stateOf (writeSeq s ps)).fileList q = some c' := by
  induction ps with
  | nil => intro s c h; exact ⟨c, h⟩
  | cons pc rest ih =>
      intro s c h
      rw [writeSeq]
      split
      · exact ⟨c, h⟩
      · rename_i s1 hs1
        have h1 := writeFileUtf8_ok_inv s s1 pc.1 pc.2 hs1
        by_cases hq : q = pc.1
        · refine ih s1 pc.2 ?_
          rw [h1, hq]
          exact findVal_setFile_self _ _ _
        · refine ih s1 c ?_
          rw [h1]
          rw [findVal_setFile_ne _ _ _ _ hq]
          exact h

/-! ### Relating `generate_all` to its write sequence -/

/-- Forgets console output, keeping the filesystem effect. -/
def fsOf (x : GenM) : Except (PyError × DirState) DirState :=
  match x with
  | .ok (s, _) => .ok s
  | .error (e, s, _) => .error (e, s)

theorem writeSeq_append (la lb : List (FsPath × String)) :
    ∀ t, writeSeq t (la ++ lb) =
      match writeSeq t la with
      | .error x => .error x
      | .ok t1 => writeSeq t1 lb := by
  induction la with
  | nil =>
      intro t
      rfl
  | cons pc rest ih =>
      intro t
      rw [List.cons_append, writeSeq, writeSeq]
      split
      · rfl
      · exact ih _

theorem fsOf_seq (a : GenM) (k : St → GenM) (s : DirState)
    (la lb : List (FsPath × String))
    (ha : fsOf a = writeSeq s la)
    (hk : ∀ s1 o1, fsOf (k (s1, o1)) = writeSeq s1 lb) :
    fsOf (a.bind k) = writeSeq s (la ++ lb) := by
  rw [writeSeq_append la lb s, ← ha]
  cases a with
  | error x =>
      obtain ⟨e, s1, o1⟩ := x
      rfl
  | ok so =>
      obtain ⟨s1, o1⟩ := so
      simp only [fsOf, Except.bind]
      exact hk s1 o1

theorem fsOf_single_write (t : St) (p : FsPath) (c : String) (l : String) :
    fsOf (match writeFileUtf8 t.1 p c with
          | .error e => .error (e, t.1, t.2)
          | .ok s1 => .ok (s1, t.2 ++ [l])) = writeSeq t.1 [(p, c)] := by
  rw [writeSeq]
  dsimp only
  cases hw : writeFileUtf8 t.1 p c with
  | error e => rfl
  | ok s1 => rfl

theorem fsOf_create_file (g : TestFileGenerator) (so : St) (f : FixtureSpec) :
    fsOf (g.create_file so f) = writeSeq so.1 [(g.output_dir ++ [f.filename], f.content)] :=
  fsOf_single_write so (g.output_dir ++ [f.filename]) f.content
    ("✓ Created " ++ f.filename ++ " (" ++ toString f.content.length
      ++ " chars) - " ++ f.description)

theorem fsOf_createFilesSeq (fx : List FixtureSpec) (g : TestFileGenerator) :
    ∀ so : St, fsOf (createFilesSeq g so fx) =
      writeSeq so.1 (fx.map (fun f => (g.output_dir ++ [f.filename], f.content))) := by
  induction fx with
  | nil => intro so; rfl
  | cons f rest ih =>
      intro so
      rw [createFilesSeq, TestFileGenerator.create_file, List.map_cons, writeSeq]
      dsimp only
      cases hw : writeFileUtf8 so.1 (g.output_dir ++ [f.filename]) f.content with
      | error e => rfl
      | ok s1 => exact ih _

/-- Targets of a single category, as written by its generator method. -/
def catTargets (g : TestFileGenerator) (fx : List FixtureSpec) : List (FsPath × String) :=
  fx.map (fun f => (g.output_dir ++ [f.filename], f.content))

theorem fsOf_generate_vscode_settings (g : TestFileGenerator) (so : St) :
    fsOf (g.generate_vscode_settings so) =
      writeSeq so.1 [(g.output_dir ++ ["test_settings.json"], settingsJsonText)] :=
  fsOf_single_write (g.log so "Generating VS Code settings...")
    (g.output_dir ++ ["test_settings.json"]) settingsJsonText
    "✓ Created test_settings.json - VS Code settings for testing"

theorem fsOf_generate_readme (g : TestFileGenerator) (so : St) :
    fsOf (g.generate_readme so) =
      writeSeq so.1 [(g.output_dir ++ ["README.md"], readme_content)] :=
  fsOf_single_write (g.log so "Generating test README...")
    (g.output_dir ++ ["README.md"]) readme_content
    "✓ Created README.md - Testing instructions"

theorem fsOf_map_printLine (x : GenM) : fsOf (x.map printLine) = fsOf x := by
  cases x with
  | error e => rfl
  | ok so => rfl

theorem fsOf_generate_js_files (g : TestFileGenerator) (t : St) :
    fsOf (g.generate_js_files t) = writeSeq t.1 (catTargets g js_files) := by
  rw [TestFileGenerator.generate_js_files, fsOf_createFilesSeq]
  exact rfl

theorem fsOf_generate_ts_files (g : TestFileGenerator) (t : St) :
    fsOf (g.generate_ts_files t) = writeSeq t.1 (catTargets g ts_files) := by
  rw [TestFileGenerator.generate_ts_files, fsOf_createFilesSeq]
  exact rfl

theorem fsOf_generate_ahk_files (g : TestFileGenerator) (t : St) :
    fsOf (g.generate_ahk_files t) = writeSeq t.1 (catTargets g ahk_files) := by
  rw [TestFileGenerator.generate_ahk_files, fsOf_createFilesSeq]
  exact rfl

theorem fsOf_generate_py_files (g : TestFileGenerator) (t : St) :
    fsOf (g.generate_py_files t) = writeSeq t.1 (catTargets g py_files) := by
  rw [TestFileGenerator.generate_py_files, fsOf_createFilesSeq]
  exact rfl

theorem fsOf_generate_cpp_files (g : TestFileGenerator) (t : St) :
    fsOf (g.generate_cpp_files t) = writeSeq t.1 (catTargets g cpp_files) := by
  rw [TestFileGenerator.generate_cpp_files, fsOf_createFilesSeq]
  exact rfl

theorem fsOf_generate_json_files (g : TestFileGenerator) (t : St) :
    fsOf (g.generate_json_files t) = writeSeq t.1 (catTargets g json_files) := by
  rw [TestFileGenerator.generate_json_files, fsOf_createFilesSeq]
  exact rfl

theorem fsOf_generate_mixed_files (g : TestFileGenerator) (t : St) :
    fsOf (g.generate_mixed_files t) = writeSeq t.1 (catTargets g mixed_files) := by
  rw [TestFileGenerator.generate_mixed_files, fsOf_createFilesSeq]
  exact rfl

theorem fsOf_generate_all_body (g : TestFileGenerator) (so : St) :
    fsOf (g.generate_all_body so) = writeSeq so.1 (fixtureTargets g) := by
  have c9 : ∀ t : St, fsOf ((g.generate_readme t).map printLine) =
      writeSeq t.1 [(g.output_dir ++ ["README.md"], readme_content)] := by
    intro t
    rw [fsOf_map_printLine]
    exact fsOf_generate_readme g t
  have c8 : ∀ t : St, fsOf ((g.generate_vscode_settings t).bind (fun so =>
        (g.generate_readme (printLine so)).map printLine)) =
      writeSeq t.1 ([(g.output_dir ++ ["test_settings.json"], settingsJsonText)]
        ++ [(g.output_dir ++ ["README.md"], readme_content)]) := by
    intro t
    exact fsOf_seq (g.generate_vscode_settings t) _ t.1
      [(g.output_dir ++ ["test_settings.json"], settingsJsonText)]
      [(g.output_dir ++ ["README.md"], readme_content)]
      (fsOf_generate_vscode_settings g t) (fun s1 o1 => c9 (printLine (s1, o1)))
  have c7 : ∀ t : St, fsOf ((g.generate_mixed_files t).bind (fun so =>
        (g.generate_vscode_settings (printLine so)).bind (fun so =>
        (g.generate_readme (printLine so)).map printLine))) =
      writeSeq t.1 (catTargets g mixed_files
        ++ ([(g.output_dir ++ ["test_settings.json"], settingsJsonText)]
        ++ [(g.output_dir ++ ["README.md"], readme_content)])) := by
    intro t
    exact fsOf_seq (g.generate_mixed_files t) _ t.1 (catTargets g mixed_files) _
      (fsOf_generate_mixed_files g t) (fun s1 o1 => c8 (printLine (s1, o1)))
  have c6 : ∀ t : St, fsOf ((g.generate_json_files t).bind (fun so =>
        (g.generate_mixed_files (printLine so)).bind (fun so =>
        (g.generate_vscode_settings (printLine so)).bind (fun so =>
        (g.generate_readme (printLine so)).map printLine)))) =
      writeSeq t.1 (catTargets g json_files ++ (catTargets g mixed_files
        ++ ([(g.output_dir ++ ["test_settings.json"], settingsJsonText)]
        ++ [(g.output_dir ++ ["README.md"], readme_content)]))) := by
    intro t
    exact fsOf_seq (g.generate_json_files t) _ t.1 (catTargets g json_files) _
      (fsOf_generate_json_files g t) (fun s1 o1 => c7 (printLine (s1, o1)))
  have c5 : ∀ t : St, fsOf ((g.generate_cpp_files t).bind (fun so =>
        (g.generate_json_files (printLine so)).bind (fun so =>
        (g.generate_mixed_files (printLine so)).bind (fun so =>
        (g.generate_vscode_settings (printLine so)).bind (fun so =>
        (g.generate_readme (printLine so)).map printLine))))) =
      writeSeq t.1 (catTargets g cpp_files ++ (catTargets g json_files
        ++ (catTargets g mixed_files
        ++ ([(g.output_dir ++ ["test_settings.json"], settingsJsonText)]
        ++ [(g.output_dir ++ ["README.md"], readme_content)])))) := by
    intro t
    exact fsOf_seq (g.generate_cpp_files t) _ t.1 (catTargets g cpp_files) _
      (fsOf_generate_cpp_files g t) (fun s1 o1 => c6 (printLine (s1, o1)))
  have c4 : ∀ t : St, fsOf ((g.generate_py_files t).bind (fun so =>
        (g.generate_cpp_files (printLine so)).bind (fun so =>
        (g.generate_json_files (printLine so)).bind (fun so =>
        (g.generate_mixed_files (printLine so)).bind (fun so =>
        (g.generate_vscode_settings (printLine so)).bind (fun so =>
        (g.generate_readme (printLine so)).map printLine)))))) =
      writeSeq t.1 (catTargets g py_files ++ (catTargets g cpp_files
        ++ (catTargets g json_files ++ (catTargets g mixed_files
        ++ ([(g.output_dir ++ ["test_settings.json"], settingsJsonText)]
        ++ [(g.output_dir ++ ["README.md"], readme_content)]))))) := by
    intro t
    exact fsOf_seq (g.generate_py_files t) _ t.1 (catTargets g py_files) _
      (fsOf_generate_py_files g t) (fun s1 o1 => c5 (printLine (s1, o1)))
  have c3 : ∀ t : St, fsOf ((g.generate_ahk_files t).bind (fun so =>
        (g.generate_py_files (printLine so)).bind (fun so =>
        (g.generate_cpp_files (printLine so)).bind (fun so =>
        (g.generate_json_files (printLine so)).bind (fun so =>
        (g.generate_mixed_files (printLine so)).bind (fun so =>
        (g.generate_vscode_settings (printLine so)).bind (fun so =>
        (g.generate_readme (printLine so)).map printLine))))))) =
      writeSeq t.1 (catTargets g ahk_files ++ (catTargets g py_files
        ++ (catTargets g cpp_files ++ (catTargets g json_files
        ++ (catTargets g mixed_files
        ++ ([(g.output_dir ++ ["test_settings.json"], settingsJsonText)]
        ++ [(g.output_dir ++ ["README.md"], readme_content)])))))) := by
    intro t
    exact fsOf_seq (g.generate_ahk_files t) _ t.1 (catTargets g ahk_files) _
      (fsOf_generate_ahk_files g t) (fun s1 o1 => c4 (printLine (s1, o1)))
  have c2 : ∀ t : St, fsOf ((g.generate_ts_files t).bind (fun so =>
        (g.generate_ahk_files (printLine so)).bind (fun so =>
        (g.generate_py_files (printLine so)).bind (fun so =>
        (g.generate_cpp_files (printLine so)).bind (fun so =>
        (g.generate_json_files (printLine so)).bind (fun so =>
        (g.generate_mixed_files (printLine so)).bind (fun so =>
        (g.generate_vscode_settings (printLine so)).bind (fun so =>
        (g.generate_readme (printLine so)).map printLine)))))))) =
      writeSeq t.1 (catTargets g ts_files ++ (catTargets g ahk_files
        ++ (catTargets g py_files ++ (catTargets g cpp_files
        ++ (catTargets g json_files ++ (catTargets g mixed_files
        ++ ([(g.output_dir ++ ["test_settings.json"], settingsJsonText)]
        ++ [(g.output_dir ++ ["README.md"], readme_content)]))))))) := by
    intro t
    exact fsOf_seq (g.generate_ts_files t) _ t.1 (catTargets g ts_files) _
      (fsOf_generate_ts_files g t) (fun s1 o1 => c3 (printLine (s1, o1)))
  have c1 : fsOf ((g.generate_js_files so).bind (fun so =>
        (g.generate_ts_files (printLine so)).bind (fun so =>
        (g.generate_ahk_files (printLine so)).bind (fun so =>
        (g.generate_py_files (printLine so)).bind (fun so =>
        (g.generate_cpp_files (printLine so)).bind (fun so =>
        (g.generate_json_files (printLine so)).bind (fun so =>
        (g.generate_mixed_files (printLine so)).bind (fun so =>
        (g.generate_vscode_settings (printLine so)).bind (fun so =>
        (g.generate_readme (printLine so)).map printLine))))))))) =
      writeSeq so.1 (catTargets g js_files ++ (catTargets g ts_files
        ++ (catTargets g ahk_files ++ (catTargets g py_files
        ++ (catTargets g cpp_files ++ (catTargets g json_files
        ++ (catTargets g mixed_files
        ++ ([(g.output_dir ++ ["test_settings.json"], settingsJsonText)]
        ++ [(g.output_dir ++ ["README.md"], readme_content)])))))))) := by
    exact fsOf_seq (g.generate_js_files so) _ so.1 (catTargets g js_files) _
      (fsOf_generate_js_files g so) (fun s1 o1 => c2 (printLine (s1, o1)))
  rw [TestFileGenerator.generate_all_body]
  exact c1.trans (by rfl)

/-! ### Interface lemmas for `generate_all` and `main` -/

theorem contains_iff_mem {α : Type} [BEq α] [LawfulBEq α] (l : List α) (a : α) :
    l.contains a = true ↔ a ∈ l :=
  List.elem_iff

theorem mem_keys_of_findVal_some (fl : List (FsPath × String)) (q : FsPath) (c : String)
    (h : findVal fl q = some c) : q ∈ fl.map (fun kv => kv.1) := by
  induction fl with
  | nil => simp [findVal_nil] at h
  | cons kv rest ih =>
      rw [findVal_cons] at h
      by_cases hk : kv.1 == q
      · exact List.mem_cons.mpr (Or.inl (eq_of_beq hk).symm)
      · simp only [Bool.not_eq_true] at hk
        simp only [hk] at h
        exact List.mem_cons_of_mem _ (ih h)

theorem findVal_eq_none_of_not_mem (fl : List (FsPath × String)) (q : FsPath)
    (h : q ∉ fl.map (fun kv => kv.1)) : findVal fl q = none := by
  cases hv : findVal fl q with
  | none => rfl
  | some c => exact absurd (mem_keys_of_findVal_some fl q c hv) h

/-- The console lines printed by `generate_all` before its `try` block. -/
def preOut (g : TestFileGenerator) (out : List String) : List String :=
  ((out ++ ["=== Starting Test File Generation ==="])
    ++ ["Output directory: " ++ pathText g.output_dir]) ++ [""]

theorem generate_all_eq (g : TestFileGenerator) (s : DirState) (out : List String) :
    g.generate_all (s, out) = g.generate_all_wrap (g.generate_all_body (s, preOut g out)) := rfl

theorem generate_all_ok (g : TestFileGenerator) (s : DirState) (out : List String)
    (sf : DirState) (h : writeSeq s (fixtureTargets g) = .ok sf) :
    ∃ o, g.generate_all (s, out) = (true, sf,
      o ++ ["=== Test file generation completed ===",
        "Generated " ++ toString (g.file_count sf) ++ " files in " ++ pathText g.output_dir,
        "Use these files to test the copyright notice extension!"]) := by
  rw [generate_all_eq]
  cases hb : g.generate_all_body (s, preOut g out) with
  | error x =>
      exfalso
      obtain ⟨e, s1, o1⟩ := x
      have hfs := fsOf_generate_all_body g (s, preOut g out)
      rw [hb] at hfs
      dsimp only [fsOf] at hfs
      rw [h] at hfs
      exact absurd hfs (by simp)
  | ok so1 =>
      obtain ⟨s1, o1⟩ := so1
      have hfs := fsOf_generate_all_body g (s, preOut g out)
      rw [hb] at hfs
      dsimp only [fsOf] at hfs
      rw [h] at hfs
      cases hfs
      exact ⟨o1, rfl⟩


theorem generate_all_err (g : TestFileGenerator) (s : DirState) (out : List String)
    (e : PyError) (sf : DirState) (h : writeSeq s (fixtureTargets g) = .error (e, sf)) :
    ∃ o, g.generate_all (s, out) = (false, sf,
      o ++ ["ERROR: Failed to generate test files: " ++ e.message]) := by
  rw [generate_all_eq]
  cases hb : g.generate_all_body (s, preOut g out) with
  | error x =>
      obtain ⟨e1, s1, o1⟩ := x
      have hfs := fsOf_generate_all_body g (s, preOut g out)
      rw [hb] at hfs
      dsimp only [fsOf] at hfs
      rw [h] at hfs
      have he : e1 = e ∧ s1 = sf := by
        cases hfs
        exact ⟨rfl, rfl⟩
      obtain ⟨he1, hs1⟩ := he
      subst he1
      subst hs1
      exact ⟨o1, rfl⟩
  | ok so1 =>
      exfalso
      obtain ⟨s1, o1⟩ := so1
      have hfs := fsOf_generate_all_body g (s, preOut g out)
      rw [hb] at hfs
      dsimp only [fsOf] at hfs
      rw [h] at hfs
      exact absurd hfs (by simp)

theorem generate_all_state (g : TestFileGenerator) (s : DirState) (out : List String) :
    (g.generate_all (s, out)).2.1 = stateOf (writeSeq s (fixtureTargets g)) := by
  rw [generate_all_eq]
  cases hb : g.generate_all_body (s, preOut g out) with
  | error x =>
      obtain ⟨e, s1, o1⟩ := x
      have hfs := fsOf_generate_all_body g (s, preOut g out)
      rw [hb] at hfs
      dsimp only [fsOf] at hfs
      rw [← hfs]
      rfl
  | ok so1 =>
      obtain ⟨s1, o1⟩ := so1
      have hfs := fsOf_generate_all_body g (s, preOut g out)
      rw [hb] at hfs
      dsimp only [fsOf] at hfs
      rw [← hfs]
      rfl

theorem generate_all_true_inv (g : TestFileGenerator) (s : DirState) (out : List String)
    (sf : DirState) (o : List String) (h : g.generate_all (s, out) = (true, sf, o)) :
    writeSeq s (fixtureTargets g) = .ok sf := by
  rw [generate_all_eq] at h
  cases hb : g.generate_all_body (s, preOut g out) with
  | error x =>
      exfalso
      obtain ⟨e, s1, o1⟩ := x
      rw [hb] at h
      dsimp only [TestFileGenerator.generate_all_wrap] at h
      simp at h
  | ok so1 =>
      obtain ⟨s1, o1⟩ := so1
      rw [hb] at h
      dsimp only [TestFileGenerator.generate_all_wrap] at h
      have hs1 : s1 = sf := congrArg (fun t : Bool × DirState × List String => t.2.1) h
      have hfs := fsOf_generate_all_body g (s, preOut g out)
      rw [hb] at hfs
      dsimp only [fsOf] at hfs
      rw [← hfs, hs1]

theorem main_eq_of_init_ok (s : DirState) (argv : List String) (g : TestFileGenerator)
    (s1 : DirState) (hinit : TestFileGenerator.init s (mainOutputDir argv) = .ok (g, s1)) :
    main s argv =
      match g.generate_all (s1, []) with
      | (true, s2, out) => .exit 0 s2 (out ++ ["",
          "Test files generated successfully in: " ++ pathText g.output_dir,
          "You can now use these files to test the copyright notice extension!"])
      | (false, s2, out) => .exit 1 s2 (out ++ ["", "Failed to generate test files."]) := by
  rw [main, hinit]

theorem main_eq_of_init_err (s : DirState) (argv : List String) (e : PyError)
    (hinit : TestFileGenerator.init s (mainOutputDir argv) = .error e) :
    main s argv = .uncaught e s [] := by
  rw [main, hinit]

theorem init_ok_of_mkdir (s s1 : DirState) (dirStr : String)
    (hmk : mkdirExistOk s (toFsPath dirStr) = .ok s1) :
    TestFileGenerator.init s dirStr = .ok (⟨toFsPath dirStr⟩, s1) := by
  rw [TestFileGenerator.init, hmk]

theorem mkdirExistOk_ok_inv (s s1 : DirState) (p : FsPath)
    (h : mkdirExistOk s p = .ok s1) :
    s1.fileList = s.fileList ∧ s1.writeError = s.writeError ∧
      s1.dirs.contains p = true ∧ (s1.dirs = s.dirs ∨ s1.dirs = s.dirs ++ [p]) := by
  rw [mkdirExistOk] at h
  split at h
  · rename_i hc
    cases h
    exact ⟨rfl, rfl, by assumption, Or.inl rfl⟩
  · split at h
    · exact absurd h (by simp)
    · split at h
      · cases h
        refine ⟨rfl, rfl, ?_, Or.inr rfl⟩
        exact (contains_iff_mem _ _).mpr (List.mem_append_right _ (List.mem_singleton.mpr rfl))
      · split at h <;> exact absurd h (by simp)

/-! ### Facts about the fixture catalog -/

theorem fixtureTargets_keys (g : TestFileGenerator) :
    (fixtureTargets g).map (fun pc => pc.1) = fixtureNames.map (fun n => g.output_dir ++ [n]) :=
  rfl

theorem fixtureNames_nodup : fixtureNames.Nodup := by decide

theorem fixtureTargets_keys_nodup (g : TestFileGenerator) :
    ((fixtureTargets g).map (fun pc => pc.1)).Nodup := by
  rw [fixtureTargets_keys]
  refine List.Nodup.map ?_ fixtureNames_nodup
  intro a b hab
  have : [a] = [b] := List.append_cancel_left hab
  simpa using this

theorem dropLast_append_single {α : Type} (l : List α) (a : α) :
    (l ++ [a]).dropLast = l := by
  simp

theorem fresh_child_facts (s : DirState) (d q : FsPath) (h : dirChildren s d = [])
    (hq : q.dropLast = d) :
    s.dirs.contains q = false ∧ findVal s.fileList q = none := by
  have hall : ∀ x ∈ s.dirs ++ s.fileList.map (fun kv => kv.1),
      ¬((fun r : FsPath => r.dropLast == d) x = true) := by
    intro x hx hpx
    have : x ∈ dirChildren s d := List.mem_filter.mpr ⟨hx, hpx⟩
    rw [h] at this
    simp at this
  constructor
  · cases hc : s.dirs.contains q with
    | false => rfl
    | true =>
        exfalso
        refine hall q (List.mem_append_left _ ((contains_iff_mem _ _).mp hc)) ?_
        simp [hq]
  · apply findVal_eq_none_of_not_mem
    intro hmem
    refine hall q (List.mem_append_right _ hmem) ?_
    simp [hq]

theorem writable_of_conditions (g : TestFileGenerator) (s : DirState)
    (hd : s.dirs.contains g.output_dir = true)
    (hnotdir : ∀ n ∈ fixtureNames, s.dirs.contains (g.output_dir ++ [n]) = false)
    (hw : ∀ n ∈ fixtureNames, s.writeError (g.output_dir ++ [n]) = none) :
    writable s (fixtureTargets g) := by
  intro pc hpc
  obtain ⟨f, hf, hfe⟩ := List.mem_map.mp hpc
  subst hfe
  have hn : f.filename ∈ fixtureNames := List.mem_map_of_mem _ hf
  refine ⟨hnotdir _ hn, ?_, hw _ hn⟩
  rw [dropLast_append_single, hd, Bool.or_true]

/-- The canonical post-run state over `s`: all fixture targets written. -/
def runState (g : TestFileGenerator) (s : DirState) : DirState :=
  ⟨s.dirs, setMany s.fileList (fixtureTargets g), s.writeError⟩

theorem writeSeq_ok_run (g : TestFileGenerator) (s : DirState)
    (hd : s.dirs.contains g.output_dir = true)
    (hnotdir : ∀ n ∈ fixtureNames, s.dirs.contains (g.output_dir ++ [n]) = false)
    (hw : ∀ n ∈ fixtureNames, s.writeError (g.output_dir ++ [n]) = none) :
    writeSeq s (fixtureTargets g) = .ok (runState g s) :=
  writeSeq_ok_of_writable _ _ (writable_of_conditions g s hd hnotdir hw)

theorem runState_findVal_mem (g : TestFileGenerator) (s : DirState) (f : FixtureSpec)
    (hf : f ∈ allFixtures) :
    findVal (runState g s).fileList (g.output_dir ++ [f.filename]) = some f.content := by
  have hmem : (g.output_dir ++ [f.filename], f.content) ∈ fixtureTargets g :=
    List.mem_map_of_mem (fun q => (g.output_dir ++ [q.filename], q.content)) hf
  dsimp only [runState]
  exact findVal_setMany_mem (fixtureTargets g) (g.output_dir ++ [f.filename]) f.content
    (fixtureTargets_keys_nodup g) hmem s.fileList

theorem setMany_targets_fresh (g : TestFileGenerator) (s : DirState)
    (hfresh : ∀ n ∈ fixtureNames, findVal s.fileList (g.output_dir ++ [n]) = none) :
    setMany s.fileList (fixtureTargets g) = s.fileList ++ fixtureTargets g := by
  refine setMany_fresh (fixtureTargets g) (fixtureTargets_keys_nodup g) s.fileList ?_
  intro pc hpc
  obtain ⟨f, hf, hfe⟩ := List.mem_map.mp hpc
  subst hfe
  exact hfresh f.filename (List.mem_map_of_mem _ hf)

theorem dirChildren_of_extended (s : DirState) (d : FsPath)
    (extra : List (FsPath × String)) (hx : ∀ pc ∈ extra, pc.1.dropLast = d) :
    dirChildren ⟨s.dirs, s.fileList ++ extra, s.writeError⟩ d =
      dirChildren s d ++ extra.map (fun kv => kv.1) := by
  dsimp only [dirChildren]
  rw [List.map_append, ← List.append_assoc, List.filter_append]
  congr 1
  refine List.filter_eq_self.mpr ?_
  intro q hq
  obtain ⟨pc, hpc, hq1⟩ := List.mem_map.mp hq
  subst hq1
  simp [hx pc hpc]

theorem runState_eq_append (g : TestFileGenerator) (s : DirState)
    (hfresh : ∀ n ∈ fixtureNames, findVal s.fileList (g.output_dir ++ [n]) = none) :
    runState g s = ⟨s.dirs, s.fileList ++ fixtureTargets g, s.writeError⟩ := by
  dsimp only [runState]
  rw [setMany_targets_fresh g s hfresh]

theorem fixtureTargets_dropLast (g : TestFileGenerator) :
    ∀ pc ∈ fixtureTargets g, pc.1.dropLast = g.output_dir := by
  intro pc hpc
  obtain ⟨f, _, hfe⟩ := List.mem_map.mp hpc
  subst hfe
  exact dropLast_append_single _ _

theorem runState_children (g : TestFileGenerator) (s : DirState)
    (hfresh : ∀ n ∈ fixtureNames, findVal s.fileList (g.output_dir ++ [n]) = none) :
    dirChildren (runState g s) g.output_dir =
      dirChildren s g.output_dir ++ (fixtureTargets g).map (fun kv => kv.1) := by
  rw [runState_eq_append g s hfresh]
  exact dirChildren_of_extended s g.output_dir (fixtureTargets g) (fixtureTargets_dropLast g)

theorem fixtureNames_length : fixtureNames.length = 19 := rfl

/-- C1: against a fresh, writable output directory (the directory exists
after the constructor's `mkdir`, is empty, and no write fails), `main`
terminates with exit status 0, every one of the nineteen fixed filenames
exists in the output directory afterwards, and the directory then holds
exactly nineteen entries. -/
theorem C1_fresh_run_creates_all_files (s s1 : DirState) (argv : List String) (d : FsPath)
    (hd : d = toFsPath (mainOutputDir argv))
    (hmk : mkdirExistOk s d = .ok s1)
    (hfresh : dirChildren s1 d = [])
    (hw : ∀ n ∈ fixtureNames, s1.writeError (d ++ [n]) = none) :
    fixtureNames = ["basic.js", "with_copyright.js", "different_copyright.js", "basic.ts",
      "with_copyright.ts", "basic.ahk", "basic.ahk2", "with_copyright.ahk", "basic.py",
      "with_copyright.py", "basic.cpp", "basic.h", "config.json", "package.json",
      "basic.html", "basic.css", "basic.sh", "test_settings.json", "README.md"] ∧
    ∃ sf o, main s argv = .exit 0 sf o ∧
      (∀ n ∈ fixtureNames, ∃ c, findVal sf.fileList (d ++ [n]) = some c) ∧
      (dirChildren sf d).length = 19 := by
  subst hd
  set d := toFsPath (mainOutputDir argv) with hddef
  have hinit := init_ok_of_mkdir s s1 (mainOutputDir argv) hmk
  have hinv := mkdirExistOk_ok_inv s s1 d hmk
  have hcont : s1.dirs.contains d = true := hinv.2.2.1
  have hnotdir : ∀ n ∈ fixtureNames, s1.dirs.contains (d ++ [n]) = false := fun n _ =>
    (fresh_child_facts s1 d (d ++ [n]) hfresh (dropLast_append_single d n)).1
  have hfreshf : ∀ n ∈ fixtureNames, findVal s1.fileList (d ++ [n]) = none := fun n _ =>
    (fresh_child_facts s1 d (d ++ [n]) hfresh (dropLast_append_single d n)).2
  have hrun := writeSeq_ok_run ⟨d⟩ s1 hcont hnotdir hw
  obtain ⟨o, hgen⟩ := generate_all_ok ⟨d⟩ s1 [] (runState ⟨d⟩ s1) hrun
  have hmain := main_eq_of_init_ok s argv ⟨d⟩ s1 hinit
  rw [hgen] at hmain
  refine ⟨rfl, runState ⟨d⟩ s1, _, hmain, ?_, ?_⟩
  · intro n hn
    obtain ⟨f, hf, hfe⟩ := List.mem_map.mp hn
    subst hfe
    exact ⟨f.content, runState_findVal_mem ⟨d⟩ s1 f hf⟩
  · rw [runState_children ⟨d⟩ s1 hfreshf, hfresh, List.nil_append]
    exact rfl

/-- The `basic.py` catalog entry, singled out because C4 names its content. -/
def pySpec : FixtureSpec :=
  ⟨"basic.py", basic_py_content, "Basic Python without copyright notice"⟩

/-- C4: under the same fresh, writable conditions as C1, every fixture file's
content after the run is byte-for-byte the literal fixed for it in the
catalog; in particular `basic.py` holds exactly the stated Python snippet. -/
theorem C4_contents_byte_exact (s s1 : DirState) (argv : List String) (d : FsPath)
    (hd : d = toFsPath (mainOutputDir argv))
    (hmk : mkdirExistOk s d = .ok s1)
    (hfresh : dirChildren s1 d = [])
    (hw : ∀ n ∈ fixtureNames, s1.writeError (d ++ [n]) = none) :
    ∃ sf o, main s argv = .exit 0 sf o ∧
      (∀ f ∈ allFixtures, findVal sf.fileList (d ++ [f.filename]) = some f.content) ∧
      findVal sf.fileList (d ++ ["basic.py"]) =
        some "def hello():\n    print(\x27Hello, World!\x27)\n\nif __name__ == \x27__main__\x27:\n    hello()\n" := by
  subst hd
  set d := toFsPath (mainOutputDir argv) with hddef
  have hinit := init_ok_of_mkdir s s1 (mainOutputDir argv) hmk
  have hinv := mkdirExistOk_ok_inv s s1 d hmk
  have hnotdir : ∀ n ∈ fixtureNames, s1.dirs.contains (d ++ [n]) = false := fun n _ =>
    (fresh_child_facts s1 d (d ++ [n]) hfresh (dropLast_append_single d n)).1
  have hrun := writeSeq_ok_run ⟨d⟩ s1 hinv.2.2.1 hnotdir hw
  obtain ⟨o, hgen⟩ := generate_all_ok ⟨d⟩ s1 [] (runState ⟨d⟩ s1) hrun
  have hmain := main_eq_of_init_ok s argv ⟨d⟩ s1 hinit
  rw [hgen] at hmain
  refine ⟨runState ⟨d⟩ s1, _, hmain, ?_, ?_⟩
  · intro f hf
    exact runState_findVal_mem ⟨d⟩ s1 f hf
  · exact runState_findVal_mem ⟨d⟩ s1 pySpec (by decide)

/-- C10: the count that `generate_all` reports via `glob("*")` is the number
of all entries of the output directory at the end of the run, pre-existing
entries included: when the directory already held `k` entries with names
outside the nineteen fixed filenames, the reported count is `19 + k`, and the
run still succeeds. -/
theorem C10_count_includes_preexisting (s s1 : DirState) (argv : List String) (d : FsPath)
    (hd : d = toFsPath (mainOutputDir argv))
    (hmk : mkdirExistOk s d = .ok s1)
    (hnotdir : ∀ n ∈ fixtureNames, s1.dirs.contains (d ++ [n]) = false)
    (hfreshf : ∀ n ∈ fixtureNames, findVal s1.fileList (d ++ [n]) = none)
    (hw : ∀ n ∈ fixtureNames, s1.writeError (d ++ [n]) = none) :
    ∃ sf o, main s argv = .exit 0 sf o ∧
      TestFileGenerator.file_count ⟨d⟩ sf = 19 + (dirChildren s1 d).length ∧
      (dirChildren sf d).length = 19 + (dirChildren s1 d).length ∧
      ("Generated " ++ toString (TestFileGenerator.file_count ⟨d⟩ sf) ++ " files in "
        ++ pathText d) ∈ o := by
  subst hd
  set d := toFsPath (mainOutputDir argv) with hddef
  have hinit := init_ok_of_mkdir s s1 (mainOutputDir argv) hmk
  have hinv := mkdirExistOk_ok_inv s s1 d hmk
  have hrun := writeSeq_ok_run ⟨d⟩ s1 hinv.2.2.1 hnotdir hw
  obtain ⟨o, hgen⟩ := generate_all_ok ⟨d⟩ s1 [] (runState ⟨d⟩ s1) hrun
  have hmain := main_eq_of_init_ok s argv ⟨d⟩ s1 hinit
  rw [hgen] at hmain
  have hcount : (dirChildren (runState ⟨d⟩ s1) d).length = 19 + (dirChildren s1 d).length := by
    rw [runState_children ⟨d⟩ s1 hfreshf, List.length_append]
    have h19 : ((fixtureTargets (⟨d⟩ : TestFileGenerator)).map (fun kv => kv.1)).length = 19 :=
      rfl
    rw [h19, Nat.add_comm]
  refine ⟨runState ⟨d⟩ s1, _, hmain, hcount, hcount, ?_⟩
  have hin : ("Generated " ++ toString (TestFileGenerator.file_count ⟨d⟩ (runState ⟨d⟩ s1))
      ++ " files in " ++ pathText d) ∈
      ["=== Test file generation completed ===",
       "Generated " ++ toString (TestFileGenerator.file_count ⟨d⟩ (runState ⟨d⟩ s1))
         ++ " files in " ++ pathText d,
       "Use these files to test the copyright notice extension!"] :=
    List.mem_cons_of_mem _ (List.mem_cons_self _ _)
  exact List.mem_append_left _ (List.mem_append_right _ hin)

theorem findVal_runState_target (g : TestFileGenerator) (s : DirState)
    (pc : FsPath × String) (hpc : pc ∈ fixtureTargets g) :
    findVal (runState g s).fileList pc.1 = some pc.2 := by
  dsimp only [runState]
  refine findVal_setMany_mem (fixtureTargets g) pc.1 pc.2 (fixtureTargets_keys_nodup g)
    ?_ s.fileList
  rw [Prod.mk.eta]
  exact hpc

/-- C5: `generate_all` is idempotent on a writable output directory: a second
run over the state left by a first successful run succeeds again, leaves every
file's content byte-for-byte identical, writes each of the nineteen filenames
at most once per run (the write list has no duplicate names), and adds no
entries (same file names, same directories). -/
theorem C5_generate_all_idempotent (g : TestFileGenerator) (s : DirState)
    (hd : s.dirs.contains g.output_dir = true)
    (hnotdir : ∀ n ∈ fixtureNames, s.dirs.contains (g.output_dir ++ [n]) = false)
    (hw : ∀ n ∈ fixtureNames, s.writeError (g.output_dir ++ [n]) = none) :
    fixtureNames.Nodup ∧
    ∃ s1 o1 s2 o2, g.generate_all (s, []) = (true, s1, o1) ∧
      g.generate_all (s1, []) = (true, s2, o2) ∧
      (∀ p, findVal s2.fileList p = findVal s1.fileList p) ∧
      s2.fileList.map (fun kv => kv.1) = s1.fileList.map (fun kv => kv.1) ∧
      s2.dirs = s1.dirs := by
  have hrun1 := writeSeq_ok_run g s hd hnotdir hw
  obtain ⟨o1, hgen1⟩ := generate_all_ok g s [] (runState g s) hrun1
  have hd2 : (runState g s).dirs.contains g.output_dir = true := by
    dsimp only [runState]
    exact hd
  have hnotdir2 : ∀ n ∈ fixtureNames,
      (runState g s).dirs.contains (g.output_dir ++ [n]) = false := by
    dsimp only [runState]
    exact hnotdir
  have hw2 : ∀ n ∈ fixtureNames, (runState g s).writeError (g.output_dir ++ [n]) = none := by
    dsimp only [runState]
    exact hw
  have hrun2 := writeSeq_ok_run g (runState g s) hd2 hnotdir2 hw2
  obtain ⟨o2, hgen2⟩ := generate_all_ok g (runState g s) [] (runState g (runState g s)) hrun2
  refine ⟨fixtureNames_nodup, runState g s, _, runState g (runState g s), _,
    hgen1, hgen2, ?_, ?_, ?_⟩
  · intro p
    dsimp only [runState]
    by_cases hp : ∃ pc ∈ fixtureTargets g, pc.1 = p
    · obtain ⟨pc, hpc, hpe⟩ := hp
      subst hpe
      have hmem : (pc.1, pc.2) ∈ fixtureTargets g := by
        rw [Prod.mk.eta]
        exact hpc
      have h1 := findVal_setMany_mem (fixtureTargets g) pc.1 pc.2
        (fixtureTargets_keys_nodup g) hmem (setMany s.fileList (fixtureTargets g))
      have h2 := findVal_setMany_mem (fixtureTargets g) pc.1 pc.2
        (fixtureTargets_keys_nodup g) hmem s.fileList
      exact h1.trans h2.symm
    · have hne : ∀ pc ∈ fixtureTargets g, pc.1 ≠ p := by
        intro pc hpc hc
        exact hp ⟨pc, hpc, hc⟩
      exact findVal_setMany_not_mem (fixtureTargets g) p hne (setMany s.fileList (fixtureTargets g))
  · dsimp only [runState]
    refine keys_setMany_of_all_some (fixtureTargets g) (setMany s.fileList (fixtureTargets g)) ?_
    intro pc hpc
    refine ⟨pc.2, ?_⟩
    refine findVal_setMany_mem (fixtureTargets g) pc.1 pc.2
      (fixtureTargets_keys_nodup g) ?_ s.fileList
    rw [Prod.mk.eta]
    exact hpc
  · dsimp only [runState]

/-- C9 (frame property): whatever the outcome, `generate_all` only ever
writes the nineteen fixture paths: any other path's content is unchanged by
the run, no existing file is deleted, and the set of directories is
untouched. -/
theorem C9_frame_only_19_files (g : TestFileGenerator) (s : DirState) (out : List String)
    (b : Bool) (s1 : DirState) (o1 : List String)
    (h : g.generate_all (s, out) = (b, s1, o1)) :
    s1.dirs = s.dirs ∧
    (∀ p, p ∉ (fixtureTargets g).map (fun pc => pc.1) →
      findVal s1.fileList p = findVal s.fileList p) ∧
    (∀ p c, findVal s.fileList p = some c → ∃ c2, findVal s1.fileList p = some c2) := by
  have hst : s1 = stateOf (writeSeq s (fixtureTargets g)) := by
    have hgs := generate_all_state g s out
    rw [h] at hgs
    exact hgs
  subst hst
  refine ⟨stateOf_writeSeq_dirs (fixtureTargets g) s, ?_, ?_⟩
  · intro p hp
    refine stateOf_writeSeq_findVal_ne (fixtureTargets g) p ?_ s
    intro pc hpc hne
    exact hp (hne ▸ List.mem_map_of_mem (fun pc => pc.1) hpc)
  · intro p c hc
    exact stateOf_writeSeq_no_delete (fixtureTargets g) p s c hc

/-- C6: when a write inside `generate_all` raises, the exception is caught:
the run logs an `ERROR:` line carrying the exception's message, `main` prints
the failure message and exits with status 1, and no rollback happens — the
state returned is exactly the state at the failure point, in which every file
written before the failing write still holds its written content. -/
theorem C6_write_failure_no_rollback (s s1 sf : DirState) (argv : List String)
    (e : PyError) (d : FsPath)
    (hd : d = toFsPath (mainOutputDir argv))
    (hmk : mkdirExistOk s d = .ok s1)
    (hfail : writeSeq s1 (fixtureTargets ⟨d⟩) = .error (e, sf)) :
    ∃ o, main s argv = .exit 1 sf (o ++ ["", "Failed to generate test files."]) ∧
      ("ERROR: Failed to generate test files: " ++ e.message) ∈ o ∧
      ∃ done p c rest, fixtureTargets (⟨d⟩ : TestFileGenerator) = done ++ (p, c) :: rest ∧
        writeSeq s1 done = .ok sf ∧ writeFileUtf8 sf p c = .error e ∧
        ∀ qc ∈ done, findVal sf.fileList qc.1 = some qc.2 := by
  subst hd
  set d := toFsPath (mainOutputDir argv) with hddef
  have hinit := init_ok_of_mkdir s s1 (mainOutputDir argv) hmk
  obtain ⟨o, hgen⟩ := generate_all_err ⟨d⟩ s1 [] e sf hfail
  have hmain := main_eq_of_init_ok s argv ⟨d⟩ s1 hinit
  rw [hgen] at hmain
  obtain ⟨done, p, c, rest, hsplit, hok, herr⟩ :=
    writeSeq_error_decomp (fixtureTargets ⟨d⟩) s1 e sf hfail
  refine ⟨o ++ ["ERROR: Failed to generate test files: " ++ e.message], hmain,
    List.mem_append_right _ (List.mem_cons_self _ _), done, p, c, rest, hsplit, hok, herr, ?_⟩
  intro qc hqc
  have hnd : (done.map (fun pc => pc.1)).Nodup := by
    have h0 := fixtureTargets_keys_nodup (⟨d⟩ : TestFileGenerator)
    rw [hsplit, List.map_append] at h0
    exact h0.of_append_left
  have hsf := writeSeq_ok_inv done s1 sf hok
  rw [hsf]
  refine findVal_setMany_mem done qc.1 qc.2 hnd ?_ s1.fileList
  rw [Prod.mk.eta]
  exact hqc

/-! ### Concrete filesystem states used as witnesses -/

/-- An existing, empty `test_files` directory with no write failures. -/
def fsFresh : DirState := ⟨[["test_files"]], [], fun _ => none⟩

/-- The generator object for the default output directory. -/
def gen0 : TestFileGenerator := ⟨["test_files"]⟩

/-- An empty filesystem: no directories, no files. -/
def emptyFS : DirState := ⟨[], [], fun _ => none⟩

/-- A filesystem holding only a regular file named `blocker`. -/
def blockFS : DirState := ⟨[], [(["blocker"], "x")], fun _ => none⟩

/-- `test_files` already holding an unrelated file `keep.txt`. -/
def keepFS : DirState :=
  ⟨[["test_files"]], [(["test_files", "keep.txt"], "data")], fun _ => none⟩

/-- A write-failure oracle that fails `test_files/basic.ts` with a disk-full
message. -/
def badWriteErr : FsPath → Option String :=
  fun p => if p == ["test_files", "basic.ts"] then some "disk full" else none

/-- An empty `test_files` directory where writing `basic.ts` raises. -/
def badFS : DirState := ⟨[["test_files"]], [], badWriteErr⟩

/-- The state `badFS` reaches when `generate_all` raises at `basic.ts`: the
three JavaScript fixtures are already written. -/
def badFailState : DirState :=
  ⟨[["test_files"]],
   [(["test_files", "basic.js"], basic_js_content),
    (["test_files", "with_copyright.js"], with_copyright_js_content),
    (["test_files", "different_copyright.js"], different_copyright_js_content)],
   badWriteErr⟩

/-- The `test_settings.json` catalog entry. -/
def settingsSpec : FixtureSpec :=
  ⟨"test_settings.json", settingsJsonText, "VS Code settings for testing"⟩

/-- C2 (amended): after any successful `generate_all` run, the file
`test_settings.json` holds the `indent=4` serialization of the settings
mapping, whose key list is exactly the seven settings keys, each carrying the
`copyright-notice.` prefix; the two `include*` keys map to boolean true. -/
theorem C2_settings_structure (g : TestFileGenerator) (s sf : DirState)
    (out o : List String) (h : g.generate_all (s, out) = (true, sf, o)) :
    findVal sf.fileList (g.output_dir ++ ["test_settings.json"]) = some (jsonDumpObj settings) ∧
    settings.map (fun kv => kv.1) =
      ["copyright-notice.fileExtensions", "copyright-notice.excludedFiles",
       "copyright-notice.template", "copyright-notice.includeTimestamp",
       "copyright-notice.timestampFormat", "copyright-notice.includeUpdateTime",
       "copyright-notice.updateTimeFormat"] ∧
    settingsLookup "copyright-notice.includeTimestamp" = some (.jbool true) ∧
    settingsLookup "copyright-notice.includeUpdateTime" = some (.jbool true) := by
  have hws := generate_all_true_inv g s out sf o h
  have hshape : sf = runState g s := writeSeq_ok_inv (fixtureTargets g) s sf hws
  subst hshape
  exact ⟨runState_findVal_mem g s settingsSpec (by decide), rfl, rfl, rfl⟩

/-- C2 counterexample: a concrete successful run writes a settings document
whose keys are NOT the bare names the claim lists — the key list differs from
the claimed set and none of the claimed bare keys occurs in it. -/
theorem C2_counterexample_keys_are_prefixed :
    (gen0.generate_all (fsFresh, [])).1 = true ∧
    findVal ((gen0.generate_all (fsFresh, [])).2.1.fileList)
      ["test_files", "test_settings.json"] = some (jsonDumpObj settings) ∧
    settings.map (fun kv => kv.1) ≠
      ["fileExtensions", "excludedFiles", "template", "includeTimestamp",
       "timestampFormat", "includeUpdateTime", "updateTimeFormat"] ∧
    (["fileExtensions", "excludedFiles", "template", "includeTimestamp",
      "timestampFormat", "includeUpdateTime", "updateTimeFormat"].all
      (fun k => !((settings.map (fun kv => kv.1)).contains k))) = true := by
  exact ⟨rfl, rfl, by decide, by decide⟩

/-- C3 (amended): the constructor's `mkdir(exist_ok=True)` succeeds silently
with no change when the directory already exists, creates the directory when
it is absent and its parent exists (the empty parent being the working
directory), and raises `FileNotFoundError` — creating nothing — when a parent
is missing: parent directories are NOT created. -/
theorem C3_mkdir_no_parents (s : DirState) (p : FsPath) :
    (s.dirs.contains p = true → mkdirExistOk s p = .ok s) ∧
    (s.dirs.contains p = false →
     s.fileList.any (fun kv => kv.1 == p) = false →
     (p.dropLast.isEmpty || s.dirs.contains p.dropLast) = true →
     mkdirExistOk s p = .ok ⟨s.dirs ++ [p], s.fileList, s.writeError⟩) ∧
    (s.dirs.contains p = false →
     s.fileList.any (fun kv => kv.1 == p) = false →
     s.fileList.any (fun kv => kv.1 == p.dropLast) = false →
     (p.dropLast.isEmpty || s.dirs.contains p.dropLast) = false →
     mkdirExistOk s p = .error .fileNotFound) := by
  refine ⟨?_, ?_, ?_⟩
  · intro h1
    rw [mkdirExistOk, if_pos h1]
  · intro h1 h2 h3
    rw [mkdirExistOk, if_neg (by rw [h1]; simp), if_neg (by rw [h2]; simp), if_pos h3]
  · intro h1 h2 h3 h4
    rw [mkdirExistOk, if_neg (by rw [h1]; simp), if_neg (by rw [h2]; simp),
      if_neg (by rw [h4]; simp), if_neg (by rw [h3]; simp)]

/-- C3 counterexample: from an empty filesystem, constructing the generator
with output directory `a/b` raises `FileNotFoundError` instead of creating
the missing parent `a`: `mkdir` is called without `parents=True`. -/
theorem C3_counterexample_missing_parent :
    TestFileGenerator.init emptyFS "a/b" = .error .fileNotFound := rfl

/-- C7 (amended): when directory creation fails in the constructor, the
exception propagates out of `main` uncaught: the interpreter terminates the
process with a traceback (non-zero status), the program prints none of its
own log or failure messages, and no fixture file is written (the filesystem
is unchanged). -/
theorem C7_constructor_error_uncaught (s : DirState) (argv : List String) (e : PyError)
    (hmk : mkdirExistOk s (toFsPath (mainOutputDir argv)) = .error e) :
    main s argv = .uncaught e s [] := by
  have hinit : TestFileGenerator.init s (mainOutputDir argv) = .error e := by
    rw [TestFileGenerator.init, hmk]
  exact main_eq_of_init_err s argv e hinit

/-- C7 counterexample: with a regular file `blocker` in the working directory
and `blocker` passed as the output directory, the run ends as an uncaught
`FileExistsError` with empty program output — nothing is caught, logged, or
converted into the orderly failure path the claim describes. -/
theorem C7_counterexample_not_caught :
    main blockFS ["prog", "blocker"] = .uncaught .fileExists blockFS [] := rfl

/-- C8: the CLI takes one optional positional output-directory argument,
defaulting to `test_files`; when present the exact argument is used.  After a
successful construction, `main` exits 0 when `generate_all` returns success
and exits 1 — after printing `Failed to generate test files.` — when it
returns failure. -/
theorem C8_cli_argument_and_exit_codes :
    mainOutputDir ["prog"] = "test_files" ∧
    (∀ p a r, mainOutputDir (p :: a :: r) = a) ∧
    (∀ s argv g s1 b s2 o,
      TestFileGenerator.init s (mainOutputDir argv) = .ok (g, s1) →
      g.generate_all (s1, []) = (b, s2, o) →
      (b = true → main s argv = .exit 0 s2 (o ++ ["",
        "Test files generated successfully in: " ++ pathText g.output_dir,
        "You can now use these files to test the copyright notice extension!"])) ∧
      (b = false → main s argv = .exit 1 s2 (o ++ ["", "Failed to generate test files."]) ∧
        "Failed to generate test files." ∈ (o ++ ["", "Failed to generate test files."]))) := by
  refine ⟨rfl, fun p a r => rfl, ?_⟩
  intro s argv g s1 b s2 o hinit hgen
  have hmain := main_eq_of_init_ok s argv g s1 hinit
  rw [hgen] at hmain
  constructor
  · intro hb
    subst hb
    exact hmain
  · intro hb
    subst hb
    refine ⟨hmain, List.mem_append_right _ ?_⟩
    exact List.mem_cons_of_mem _ (List.mem_cons_self _ _)

/-! ### Witnesses: the claim theorems applied at concrete states -/

/-- C1's hypotheses hold for a fresh `test_files` directory, and the run then
creates all nineteen files. -/
theorem C1_witness :
    dirChildren fsFresh ["test_files"] = [] ∧
    (fixtureNames = ["basic.js", "with_copyright.js", "different_copyright.js", "basic.ts",
      "with_copyright.ts", "basic.ahk", "basic.ahk2", "with_copyright.ahk", "basic.py",
      "with_copyright.py", "basic.cpp", "basic.h", "config.json", "package.json",
      "basic.html", "basic.css", "basic.sh", "test_settings.json", "README.md"] ∧
    ∃ sf o, main fsFresh ["prog"] = .exit 0 sf o ∧
      (∀ n ∈ fixtureNames, ∃ c, findVal sf.fileList (["test_files"] ++ [n]) = some c) ∧
      (dirChildren sf ["test_files"]).length = 19) :=
  ⟨rfl, C1_fresh_run_creates_all_files fsFresh fsFresh ["prog"] ["test_files"]
    rfl rfl rfl (fun _ _ => rfl)⟩

/-- C2's theorem applied to a concrete successful run. -/
theorem C2_witness :
    findVal ((gen0.generate_all (fsFresh, [])).2.1.fileList)
      (gen0.output_dir ++ ["test_settings.json"]) = some (jsonDumpObj settings) ∧
    settings.map (fun kv => kv.1) =
      ["copyright-notice.fileExtensions", "copyright-notice.excludedFiles",
       "copyright-notice.template", "copyright-notice.includeTimestamp",
       "copyright-notice.timestampFormat", "copyright-notice.includeUpdateTime",
       "copyright-notice.updateTimeFormat"] ∧
    settingsLookup "copyright-notice.includeTimestamp" = some (.jbool true) ∧
    settingsLookup "copyright-notice.includeUpdateTime" = some (.jbool true) :=
  C2_settings_structure gen0 fsFresh ((gen0.generate_all (fsFresh, [])).2.1) []
    ((gen0.generate_all (fsFresh, [])).2.2) rfl

/-- C3's amended theorem applied concretely: creation without a parent in the
path, and silent success on an existing directory. -/
theorem C3_witness :
    emptyFS.dirs.contains ["a"] = false ∧
    mkdirExistOk emptyFS ["a"] =
      .ok ⟨emptyFS.dirs ++ [["a"]], emptyFS.fileList, emptyFS.writeError⟩ ∧
    mkdirExistOk fsFresh ["test_files"] = .ok fsFresh :=
  ⟨rfl, (C3_mkdir_no_parents emptyFS ["a"]).2.1 rfl rfl rfl,
   (C3_mkdir_no_parents fsFresh ["test_files"]).1 rfl⟩

/-- C4's theorem applied to a concrete fresh run. -/
theorem C4_witness :
    dirChildren fsFresh ["test_files"] = [] ∧
    ∃ sf o, main fsFresh ["prog"] = .exit 0 sf o ∧
      (∀ f ∈ allFixtures, findVal sf.fileList (["test_files"] ++ [f.filename]) = some f.content) ∧
      findVal sf.fileList (["test_files"] ++ ["basic.py"]) =
        some "def hello():\n    print(\x27Hello, World!\x27)\n\nif __name__ == \x27__main__\x27:\n    hello()\n" :=
  ⟨rfl, C4_contents_byte_exact fsFresh fsFresh ["prog"] ["test_files"]
    rfl rfl rfl (fun _ _ => rfl)⟩

/-- C5's theorem applied to a concrete writable directory. -/
theorem C5_witness :
    fsFresh.dirs.contains gen0.output_dir = true ∧
    (fixtureNames.Nodup ∧
    ∃ s1 o1 s2 o2, gen0.generate_all (fsFresh, []) = (true, s1, o1) ∧
      gen0.generate_all (s1, []) = (true, s2, o2) ∧
      (∀ p, findVal s2.fileList p = findVal s1.fileList p) ∧
      s2.fileList.map (fun kv => kv.1) = s1.fileList.map (fun kv => kv.1) ∧
      s2.dirs = s1.dirs) :=
  ⟨rfl, C5_generate_all_idempotent gen0 fsFresh rfl (fun _ _ => rfl) (fun _ _ => rfl)⟩

/-- C6's theorem applied to a run in which writing `basic.ts` raises a
disk-full error: the three files already written persist. -/
theorem C6_witness :
    writeSeq badFS (fixtureTargets (⟨["test_files"]⟩ : TestFileGenerator)) =
      .error (.ioError "disk full", badFailState) ∧
    ∃ o, main badFS ["prog"] = .exit 1 badFailState (o ++ ["", "Failed to generate test files."]) ∧
      ("ERROR: Failed to generate test files: " ++ "disk full") ∈ o ∧
      ∃ done p c rest,
        fixtureTargets (⟨["test_files"]⟩ : TestFileGenerator) = done ++ (p, c) :: rest ∧
        writeSeq badFS done = .ok badFailState ∧
        writeFileUtf8 badFailState p c = .error (.ioError "disk full") ∧
        ∀ qc ∈ done, findVal badFailState.fileList qc.1 = some qc.2 :=
  ⟨rfl, C6_write_failure_no_rollback badFS badFS badFailState ["prog"]
    (.ioError "disk full") ["test_files"] rfl rfl rfl⟩

/-- C7's amended theorem applied to the `blocker` scenario. -/
theorem C7_witness :
    mkdirExistOk blockFS ["blocker"] = .error .fileExists ∧
    main blockFS ["prog", "blocker"] = .uncaught .fileExists blockFS [] :=
  ⟨rfl, C7_constructor_error_uncaught blockFS ["prog", "blocker"] .fileExists rfl⟩

/-- C8's theorem applied to a default-argument run that succeeds. -/
theorem C8_witness :
    main fsFresh ["prog"] = .exit 0 ((gen0.generate_all (fsFresh, [])).2.1)
      ((gen0.generate_all (fsFresh, [])).2.2 ++ ["",
       "Test files generated successfully in: " ++ pathText gen0.output_dir,
       "You can now use these files to test the copyright notice extension!"]) :=
  ((C8_cli_argument_and_exit_codes.2.2 fsFresh ["prog"] gen0 fsFresh
    ((gen0.generate_all (fsFresh, [])).1) ((gen0.generate_all (fsFresh, [])).2.1)
    ((gen0.generate_all (fsFresh, [])).2.2) rfl rfl).1 rfl)

/-- C9's frame theorem applied to a run over a directory holding an unrelated
file `keep.txt`, whose content survives untouched. -/
theorem C9_witness :
    findVal ((gen0.generate_all (keepFS, [])).2.1.fileList)
      ["test_files", "keep.txt"] = some "data" := by
  have h := C9_frame_only_19_files gen0 keepFS [] ((gen0.generate_all (keepFS, [])).1)
    ((gen0.generate_all (keepFS, [])).2.1) ((gen0.generate_all (keepFS, [])).2.2) rfl
  have h2 := h.2.1 ["test_files", "keep.txt"] (by decide)
  rw [h2]
  rfl

/-- C10's theorem applied to a directory holding one extra file: the reported
count is 20. -/
theorem C10_witness :
    (dirChildren keepFS ["test_files"]).length = 1 ∧
    ∃ sf o, main keepFS ["prog"] = .exit 0 sf o ∧
      TestFileGenerator.file_count ⟨["test_files"]⟩ sf =
        19 + (dirChildren keepFS ["test_files"]).length ∧
      (dirChildren sf ["test_files"]).length = 19 + (dirChildren keepFS ["test_files"]).length ∧
      ("Generated " ++ toString (TestFileGenerator.file_count ⟨["test_files"]⟩ sf)
        ++ " files in " ++ pathText ["test_files"]) ∈ o :=
  ⟨rfl, C10_count_includes_preexisting keepFS keepFS ["prog"] ["test_files"]
    rfl rfl (by decide) (by decide) (fun _ _ => rfl)⟩

end GenTestFiles
